import Mathlib

set_option linter.unusedVariables false

set_option linter.unusedTactic false

/-! Verification of the GenAI-Verity compliance-audit pipeline.

Shallow embedding conventions: Python strings are modelled as `String`
(with `List Char` for character-level scanning), Python floats carrying
similarity scores and compliance scores are modelled as `Rat`, and
external collaborators (the vector stores and the LLM backends) are
passed in as function parameters. Fallible operations return `Except`.
-/

/-- Python str.lower over a char list (all inputs here are ASCII). -/
def lowerL (l : List Char) : List Char := l.map Char.toLower

/-- Python substring test `pat in hay`: `pat` occurs as a prefix of some suffix. -/
def containsSub (pat : List Char) : List Char → Bool
  | [] => pat.isPrefixOf []
  | c :: cs => pat.isPrefixOf (c :: cs) || containsSub pat cs

/-- Python str.strip: drop whitespace from both ends. -/
def stripL (l : List Char) : List Char :=
  ((l.dropWhile Char.isWhitespace).reverse.dropWhile Char.isWhitespace).reverse

/-- Python text.split on the newline character, as used by the response parser. -/
def splitOnNl : List Char → List (List Char)
  | [] => [[]]
  | c :: cs =>
    match splitOnNl cs with
    | [] => [[c]]
    | l :: ls => if c = '\n' then [] :: l :: ls else (c :: l) :: ls

/-- Characters after the first colon, if a colon occurs. -/
def afterColon : List Char → Option (List Char)
  | [] => none
  | c :: cs => if c = ':' then some cs else afterColon cs

/-- Python line.split on a colon with maxsplit 1, last component:
the tail after the first colon when one occurs, the whole line otherwise. -/
def splitColonTail (l : List Char) : List Char := (afterColon l).getD l

/-- Numeric value of a decimal digit character. -/
def digitVal (c : Char) : Nat := c.toNat - '0'.toNat

/-- Value of a list of decimal digit characters. -/
def parseNatL (ds : List Char) : Nat := ds.foldl (fun n c => 10 * n + digitVal c) 0

/-- Exact value of a decimal numeral with integer part and fractional part,
the number a Python float call would produce for the matched token. -/
def ratOfParts (intDs fracDs : List Char) : Rat :=
  (parseNatL intDs : Rat) + (parseNatL fracDs : Rat) / (10 : Rat) ^ fracDs.length

/-- First match of the numeric-token regex used by the score extractor
(digits, an optional dot, further optional digits), scanning left to right. -/
def firstNumber : List Char → Option Rat
  | [] => none
  | c :: cs =>
    if c.isDigit then
      let intDs := (c :: cs).takeWhile Char.isDigit
      match (c :: cs).dropWhile Char.isDigit with
      | r :: rest =>
        if r = '.' then some (ratOfParts intDs (rest.takeWhile Char.isDigit))
        else some (ratOfParts intDs [])
      | [] => some (ratOfParts intDs [])
    else firstNumber cs

/-- Regulatory framework enumeration from src/src/prompts.py. -/
inductive Framework
  | ISO27001
  | GDPR
  | SOC2
  | HIPAA
  deriving DecidableEq

/-- The Python enum value string of each framework. -/
def Framework.value : Framework → String
  | .ISO27001 => "ISO 27001"
  | .GDPR => "GDPR"
  | .SOC2 => "SOC2"
  | .HIPAA => "HIPAA"

/-- Reasoning strategy enumeration from src/src/prompts.py. -/
inductive ReasoningStrategy
  | CHAIN_OF_THOUGHT
  | REACT
  | SELF_CORRECTION
  | TREE_OF_THOUGHTS
  deriving DecidableEq

/-- Compliance status values. The union of the enum in src/src/agent.py
(COMPLIANT, PARTIAL, NON_COMPLIANT, NOT_APPLICABLE) and the
INSUFFICIENT_EVIDENCE value used by the per-requirement agent that the
unit tests and src/src/policy_analysis.py exercise. Scoring and counting
compare statuses by enum name, which constructor equality models. -/
inductive ComplianceStatus
  | compliant
  | partialStatus
  | nonCompliant
  | notApplicable
  | insufficientEvidence
  deriving DecidableEq

/-- Severity levels from src/src/agent.py. -/
inductive SeverityLevel
  | critical
  | high
  | medium
  | low
  deriving DecidableEq

/-- Retrieval confidence levels used by the per-requirement agent. -/
inductive ConfidenceLevel
  | high
  | medium
  | low
  deriving DecidableEq

/-- PromptContext dataclass from src/src/prompts.py. -/
structure PromptContext where
  document_text : String
  framework : Framework
  strategy : ReasoningStrategy
  previous_analysis : Option String := none

/-- Join items as dash bullet lines, the formatting helper the builders share. -/
def dashJoin (items : List String) : String :=
  String.intercalate "\n" (items.map (fun s => "- " ++ s))

/-- Join items as numbered lines starting from 1. -/
def numberJoin (items : List String) : String :=
  String.intercalate "\n" (items.enum.map (fun p => toString (p.1 + 1) ++ ". " ++ p.2))

/-- Role line of SystemPromptBuilder. -/
def system_prompt_role : String :=
  "You are an expert compliance analyst specializing in information security and data protection regulations."

/-- Expertise block of SystemPromptBuilder. -/
def system_prompt_expertise : String :=
  "Your expertise includes:\n" ++ dashJoin
    ["ISO 27001 information security controls",
     "GDPR data protection requirements",
     "SOC2 trust service criteria",
     "HIPAA privacy and security rules"]

/-- Guidelines of SystemPromptBuilder. -/
def system_prompt_guidelines : List String :=
  ["Analyze documents thoroughly and methodically",
   "Identify specific compliance gaps with evidence",
   "Provide actionable recommendations",
   "Use precise regulatory terminology",
   "Rate severity objectively based on risk impact",
   "Support all findings with direct document quotes"]

/-- SystemPromptBuilder.build_compliance_analyst from src/src/prompts.py. -/
def build_system_prompt : String :=
  system_prompt_role ++ "\n\n" ++ system_prompt_expertise ++ "\n\nGuidelines:\n"
    ++ dashJoin system_prompt_guidelines

/-- ChainOfThoughtPromptBuilder instruction. -/
def cot_instruction (fw : Framework) : String :=
  "Analyze the following policy document for compliance with " ++ fw.value
    ++ ".\n\nUse step-by-step reasoning to evaluate each relevant control."

/-- ChainOfThoughtPromptBuilder thinking steps. -/
def cot_thinking_steps : List String :=
  ["Identify the policy sections in the document",
   "List applicable regulatory controls for each section",
   "Compare document statements against control requirements",
   "Determine compliance status for each control",
   "Identify gaps and their severity",
   "Formulate specific recommendations"]

/-- ChainOfThoughtPromptBuilder output format. -/
def cot_output_format : String :=
  "For each finding, provide:\n- Control ID and title\n- Requirement summary\n- Document evidence (quote)\n- Compliance status (compliant/partial/non-compliant)\n- Gap description\n- Severity (critical/high/medium/low)\n- Recommendation\n\nFinally, calculate an overall compliance score (0-100)."

/-- ChainOfThoughtPromptBuilder.build from src/src/prompts.py. -/
def cot_build (ctx : PromptContext) : String :=
  cot_instruction ctx.framework ++ "\n\nDocument:\n---\n" ++ ctx.document_text
    ++ "\n---\n\nReasoning Process:\n" ++ numberJoin cot_thinking_steps
    ++ "\n\n" ++ cot_output_format

/-- ReActPromptBuilder instruction. -/
def react_instruction (fw : Framework) : String :=
  "Analyze this policy document for " ++ fw.value
    ++ " compliance using the ReAct reasoning pattern.\n\nAlternate between Thought, Action, and Observation steps."

/-- ReActPromptBuilder loop description. -/
def react_loop : String :=
  "For each control:\n\nThought: What aspect should I analyze next?\nAction: Select an action to gather information\nObservation: Record what you found\nAnalysis: Evaluate compliance based on observation\n\nRepeat until all controls are evaluated."

/-- ReActPromptBuilder available actions. -/
def react_available_actions : List String :=
  ["SEARCH_DOCUMENT: Find mentions of specific security controls",
   "EXTRACT_POLICY: Extract policy statements for a topic",
   "CHECK_REQUIREMENT: Verify if a requirement is met",
   "ASSESS_GAP: Identify what is missing",
   "RATE_SEVERITY: Determine impact of a gap"]

/-- ReActPromptBuilder output format. -/
def react_output_format : String :=
  "After completing all iterations, provide:\n- Complete findings list with evidence\n- Compliance score\n- Priority recommendations"

/-- ReActPromptBuilder.build from src/src/prompts.py. -/
def react_build (ctx : PromptContext) : String :=
  react_instruction ctx.framework ++ "\n\nDocument:\n---\n" ++ ctx.document_text
    ++ "\n---\n\n" ++ react_loop ++ "\n\nAvailable Actions:\n"
    ++ dashJoin react_available_actions ++ "\n\n" ++ react_output_format

/-- SelfCorrectionPromptBuilder instruction. -/
def sc_instruction : String :=
  "Review and improve the following compliance analysis.\n\nIdentify errors, omissions, or areas needing refinement."

/-- SelfCorrectionPromptBuilder review criteria. -/
def sc_review_criteria : List String :=
  ["Are all critical controls addressed?",
   "Is the evidence specific and quoted accurately?",
   "Are severity ratings justified?",
   "Are recommendations actionable and specific?",
   "Is the compliance score calculation correct?",
   "Are there any logical inconsistencies?"]

/-- SelfCorrectionPromptBuilder output format. -/
def sc_output_format : String :=
  "Provide:\n1. Identified issues in the original analysis\n2. Corrected findings\n3. Updated compliance score if needed\n4. Explanation of changes made"

/-- SelfCorrectionPromptBuilder.build from src/src/prompts.py: the Python
code raises ValueError when `not context.previous_analysis`, which is true
exactly for an absent value and for the empty string; the raise is
modelled as `Except.error`. -/
def self_correction_build (ctx : PromptContext) : Except String String :=
  match ctx.previous_analysis with
  | none => .error "Self-correction requires previous_analysis in context"
  | some prev =>
    if prev = "" then .error "Self-correction requires previous_analysis in context"
    else .ok (sc_instruction ++ "\n\nPrevious Analysis:\n---\n" ++ prev
      ++ "\n---\n\nReview Criteria:\n" ++ dashJoin sc_review_criteria
      ++ "\n\n" ++ sc_output_format)

/-- TreeOfThoughtsPromptBuilder instruction. -/
def tot_instruction (fw : Framework) : String :=
  "Analyze this document for " ++ fw.value
    ++ " compliance by exploring multiple interpretation paths.\n\nFor ambiguous sections, consider alternative interpretations."

/-- TreeOfThoughtsPromptBuilder branching strategy. -/
def tot_branching_strategy : String :=
  "When encountering ambiguous policy statements:\n\n1. Generate 2-3 possible interpretations\n2. Evaluate compliance under each interpretation\n3. Assess likelihood of each interpretation\n4. Select the most reasonable interpretation\n5. Note assumptions made"

/-- TreeOfThoughtsPromptBuilder evaluation method. -/
def tot_evaluation_method : String :=
  "Rate each interpretation path on:\n- Consistency with document context\n- Alignment with regulatory intent\n- Practical feasibility\n- Risk level"

/-- TreeOfThoughtsPromptBuilder output format. -/
def tot_output_format : String :=
  "Provide:\n- Main compliance findings\n- Ambiguous areas with interpretation analysis\n- Recommended interpretation for each ambiguity\n- Overall compliance score with confidence level\n- Risk assessment based on interpretation uncertainty"

/-- TreeOfThoughtsPromptBuilder.build from src/src/prompts.py. -/
def tot_build (ctx : PromptContext) : String :=
  tot_instruction ctx.framework ++ "\n\nDocument:\n---\n" ++ ctx.document_text
    ++ "\n---\n\n" ++ tot_branching_strategy ++ "\n\n" ++ tot_evaluation_method
    ++ "\n\n" ++ tot_output_format

/-- PromptOrchestrator.build_analysis_prompt from src/src/prompts.py; the
strategy enum dispatch is exhaustive, so the trailing unknown-strategy
branch of the Python code is unreachable. -/
def build_analysis_prompt (ctx : PromptContext) : Except String String :=
  match ctx.strategy with
  | .CHAIN_OF_THOUGHT => .ok (cot_build ctx)
  | .REACT => .ok (react_build ctx)
  | .SELF_CORRECTION => self_correction_build ctx
  | .TREE_OF_THOUGHTS => .ok (tot_build ctx)

/-- PromptOrchestrator.build_complete_prompt from src/src/prompts.py:
system prompt and analysis prompt as one pair, with a failure of the
analysis builder propagated as a failure of the whole call. -/
def build_complete_prompt (ctx : PromptContext) : Except String (String × String) :=
  match build_analysis_prompt ctx with
  | .ok p => .ok (build_system_prompt, p)
  | .error e => .error e

/-- One structured finding of the ResponseParser in src/src/agent.py. -/
structure ParserFinding where
  control_id : String
  control_title : String
  requirement : String
  evidence : String
  status : ComplianceStatus
  gap_description : String
  severity : SeverityLevel
  recommendation : String
  deriving DecidableEq

/-- Inner line scan of ResponseParser._extract_field: the first line whose
lowercased text contains the pattern and whose text after the first colon
is non-empty once stripped. -/
def extract_field_lines (pat : List Char) : List (List Char) → Option (List Char)
  | [] => none
  | l :: ls =>
    if containsSub pat (lowerL l) then
      let value := stripL (splitColonTail l)
      if value.isEmpty then extract_field_lines pat ls else some value
    else extract_field_lines pat ls

/-- ResponseParser._extract_field from src/src/agent.py: try each field
name in order, with a colon appended, over the lines of the section. -/
def extract_field (text : List Char) : List (List Char) → List Char
  | [] => []
  | fn :: fns =>
    match extract_field_lines (fn ++ [':']) (splitOnNl text) with
    | some v => v
    | none => extract_field text fns

/-- ResponseParser._extract_status from src/src/agent.py: case-insensitive
substring search in fixed priority order, defaulting to NON_COMPLIANT. -/
def extract_status (text : String) : ComplianceStatus :=
  let tl := lowerL text.data
  if containsSub "non-compliant".data tl || containsSub "non compliant".data tl then
    .nonCompliant
  else if containsSub "partial".data tl then .partialStatus
  else if containsSub "compliant".data tl then .compliant
  else if containsSub "not applicable".data tl || containsSub "n/a".data tl then
    .notApplicable
  else .nonCompliant

/-- ResponseParser._extract_severity from src/src/agent.py: case-insensitive
substring search over the section text, defaulting to MEDIUM. -/
def extract_severity (text : String) : SeverityLevel :=
  let tl := lowerL text.data
  if containsSub "critical".data tl then .critical
  else if containsSub "high".data tl then .high
  else if containsSub "medium".data tl then .medium
  else if containsSub "low".data tl then .low
  else .medium

/-- ResponseParser._parse_finding_section from src/src/agent.py: a section
without a control id is discarded, the title falls back to Unknown, the
other text fields fall back to the empty string. -/
def parse_finding_section (sec : String) : Option ParserFinding :=
  let control_id := extract_field sec.data ["control id".data, "control:".data]
  let control_title := extract_field sec.data ["title".data, "control title".data]
  let requirement := extract_field sec.data ["requirement".data, "requirements".data]
  let evidence := extract_field sec.data ["evidence".data, "document evidence".data]
  let status := extract_status sec
  let gap := extract_field sec.data ["gap".data, "gap description".data]
  let severity := extract_severity sec
  let recommendation := extract_field sec.data ["recommendation".data, "action".data]
  if control_id.isEmpty then none
  else some
    { control_id := String.mk control_id
      control_title := if control_title.isEmpty then "Unknown" else String.mk control_title
      requirement := String.mk requirement
      evidence := String.mk evidence
      status := status
      gap_description := String.mk gap
      severity := severity
      recommendation := String.mk recommendation }

/-- Line filter of ResponseParser._extract_score: the line mentions one of
the three score keywords, case-insensitively. -/
def isScoreLine (l : List Char) : Bool :=
  let ll := lowerL l
  containsSub "compliance score".data ll || containsSub "overall score".data ll
    || containsSub "final score".data ll

/-- Clamp of ResponseParser._extract_score: min(100, max(0, score)). -/
def clampScore (x : Rat) : Rat := min 100 (max 0 x)

/-- Line loop of ResponseParser._extract_score: on a keyword line with a
numeric token, divide by 100 when above 100 and clamp; a keyword line
without a numeric token falls through to the remaining lines. -/
def extract_score_lines : List (List Char) → Rat
  | [] => 0
  | l :: ls =>
    if isScoreLine l then
      match firstNumber l with
      | some n => clampScore (if 100 < n then n / 100 else n)
      | none => extract_score_lines ls
    else extract_score_lines ls

/-- ResponseParser._extract_score from src/src/agent.py. -/
def extract_score (text : String) : Rat := extract_score_lines (splitOnNl text.data)

/-- One retrieved evidence chunk: text plus source identifier. -/
structure RetrievedDoc where
  text : String
  source : String
  deriving DecidableEq

/-- Per-requirement compliance finding with the fields the unit tests
construct (requirement, status, analysis, severity, sources, confidence,
retrieval_notes). -/
structure ComplianceFinding where
  requirement : String
  status : ComplianceStatus
  analysis : String
  severity : SeverityLevel
  sources : List String
  confidence : ConfidenceLevel
  retrieval_notes : String
  deriving DecidableEq

/-- Case-insensitive substring search of a pattern in a text. -/
def containsLower (pat text : String) : Bool :=
  containsSub pat.data (lowerL text.data)

/-- Modelled from the spec: single-verdict status inference of the
per-requirement agent (ComplianceAgent._infer_status, absent from src/,
only its unit tests are present): case-insensitive substring search over
the whole response in fixed priority order, with INSUFFICIENT_EVIDENCE as
the fail-safe default. -/
def infer_status (text : String) : ComplianceStatus :=
  if containsLower "insufficient" text || containsLower "not enough evidence" text then
    .insufficientEvidence
  else if containsLower "non-compliant" text || containsLower "not compliant" text then
    .nonCompliant
  else if containsLower "partial" text then .partialStatus
  else if containsLower "compliant" text then .compliant
  else .insufficientEvidence

/-- Modelled from the spec: severity of a finding of the per-requirement
agent as a pure function of its status (ComplianceAgent._infer_severity,
absent from src/, only its unit tests are present): NON_COMPLIANT maps to
HIGH, PARTIAL to MEDIUM, everything else to LOW. -/
def infer_severity : ComplianceStatus → SeverityLevel
  | .nonCompliant => .high
  | .partialStatus => .medium
  | _ => .low

/-- Count of retrieved documents whose text is non-empty after stripping
whitespace. -/
def nonEmptyCount (docs : List RetrievedDoc) : Nat :=
  (docs.filter (fun d => !(stripL d.text.data).isEmpty)).length

/-- Maximum of a score list, as Python max over a non-empty list. -/
def maxScore : List Rat → Rat
  | [] => 0
  | s :: ss => ss.foldl max s

/-- Minimum of a score list, as Python min over a non-empty list. -/
def minScore : List Rat → Rat
  | [] => 0
  | s :: ss => ss.foldl min s

/-- Score spread max(scores) - min(scores). -/
def spreadOf (scores : List Rat) : Rat := maxScore scores - minScore scores

/-- The 0.15 spread policy constant of the retrieval quality assessor. -/
def spreadThreshold : Rat := 3 / 20

/-- Modelled from the spec: the deterministic retrieval quality assessor
(ComplianceAgent._assess_retrieval_quality, absent from src/, only its
unit tests are present). Order of checks: no documents, then too few
non-empty documents, then missing scores, then the spread rule. Returns
confidence level, diagnostic note, and the sufficiency verdict. -/
def assess_retrieval_quality (docs : List RetrievedDoc) (scores : List Rat) :
    ConfidenceLevel × String × Bool :=
  if docs.length = 0 then (.low, "No chunks retrieved", false)
  else if nonEmptyCount docs < 2 then (.low, "Too few non-empty chunks", false)
  else if scores.isEmpty then (.medium, "Scores unavailable", true)
  else if 3 ≤ nonEmptyCount docs ∧ spreadThreshold < spreadOf scores then
    (.high, "Strong retrieval signal", true)
  else if 2 ≤ nonEmptyCount docs then (.medium, "Adequate retrieval", true)
  else (.low, "Insufficient retrieval", false)

/-- Lexicographic boolean comparison of char lists, for source sorting. -/
def lexLe : List Char → List Char → Bool
  | [], _ => true
  | _ :: _, [] => false
  | a :: as, b :: bs => if a = b then lexLe as bs else decide (a < b)

/-- Insert into a lexLe-sorted list of strings. -/
def insertLe (x : String) : List String → List String
  | [] => [x]
  | y :: ys => if lexLe x.data y.data then x :: y :: ys else y :: insertLe x ys

/-- Insertion sort of source identifiers. -/
def sortSources : List String → List String
  | [] => []
  | x :: xs => insertLe x (sortSources xs)

/-- De-duplicated, sorted evidence source identifiers of a finding. -/
def findingSources (docs : List RetrievedDoc) : List String :=
  sortSources ((docs.map RetrievedDoc.source).dedup)

/-- Modelled from the spec: the analysis prompt of the per-requirement
agent embeds the retrieved context, the policy excerpt under test, and a
citation instruction. -/
def build_requirement_prompt (requirement policy_excerpt : String)
    (docs : List RetrievedDoc) : String :=
  "Requirement: " ++ requirement ++ "\nRetrieved context:\n"
    ++ String.intercalate "\n" (docs.map RetrievedDoc.text)
    ++ "\nPolicy excerpt:\n" ++ policy_excerpt
    ++ "\nBase the judgment strictly on the provided context and cite it."

/-- Modelled from the spec: the per-requirement Compliance Agent pipeline
(ComplianceAgent.analyze of the Gemini-based agent, absent from src/: only
its unit tests and its caller analyze_policy are present). Retrieval and
the language model are fallible oracles; the second component records
whether a model call occurred. A retrieval failure or an insufficient
assessment short-circuits to an INSUFFICIENT_EVIDENCE finding without a
model call; a model failure degrades to an INSUFFICIENT_EVIDENCE finding;
otherwise status and severity are inferred from the response text. -/
def agent_analyze (retrieval : Except String (List (RetrievedDoc × Rat)))
    (llm : String → Except String String)
    (requirement policy_excerpt : String) : ComplianceFinding × Bool :=
  match retrieval with
  | .error e =>
    ({ requirement := requirement
       status := .insufficientEvidence
       analysis := "Retrieval failed: " ++ e
       severity := infer_severity .insufficientEvidence
       sources := []
       confidence := .low
       retrieval_notes := e }, false)
  | .ok docsScores =>
    let docs := docsScores.map Prod.fst
    let qa := assess_retrieval_quality docs (docsScores.map Prod.snd)
    if qa.2.2 then
      match llm (build_requirement_prompt requirement policy_excerpt docs) with
      | .error e =>
        ({ requirement := requirement
           status := .insufficientEvidence
           analysis := "Model call failed: " ++ e
           severity := infer_severity .insufficientEvidence
           sources := findingSources docs
           confidence := .low
           retrieval_notes := qa.2.1 }, true)
      | .ok text =>
        ({ requirement := requirement
           status := infer_status text
           analysis := text
           severity := infer_severity (infer_status text)
           sources := findingSources docs
           confidence := qa.1
           retrieval_notes := qa.2.1 }, true)
    else
      ({ requirement := requirement
         status := .insufficientEvidence
         analysis := "Insufficient evidence to assess this requirement."
         severity := infer_severity .insufficientEvidence
         sources := findingSources docs
         confidence := qa.1
         retrieval_notes := qa.2.1 }, false)

/-- ISO27001_REQUIREMENTS from src/config/requirements.py. -/
def ISO27001_REQUIREMENTS : List String :=
  ["Information security policies must be formally documented and approved",
   "Access to systems and data must follow the principle of least privilege",
   "User access rights must be reviewed periodically",
   "Security incidents must be detected, logged, and reported",
   "Personal data must be protected against unauthorized access and disclosure"]

/-- GDPR_REQUIREMENTS from src/config/requirements.py. -/
def GDPR_REQUIREMENTS : List String :=
  ["Personal data processing must be lawful, fair, and transparent",
   "Data must be collected for explicit and legitimate purposes",
   "Personal data must be protected by appropriate technical measures",
   "Data breaches must be detected and reported without undue delay"]

/-- get_requirements from src/config/requirements.py: static lookup, with
the empty list for every framework without a requirement list. -/
def get_requirements : Framework → List String
  | .ISO27001 => ISO27001_REQUIREMENTS
  | .GDPR => GDPR_REQUIREMENTS
  | _ => []

/-- ComplianceSummary dataclass from src/src/policy_analysis.py (the
PARTIAL count field is named partialCount here). -/
structure ComplianceSummary where
  total_findings : Nat
  compliant : Nat
  partialCount : Nat
  non_compliant : Nat
  compliance_score : Rat
  findings : List ComplianceFinding
  deriving DecidableEq

/-- Count of findings with a given status, as the generator-sum counting
by enum name in src/src/policy_analysis.py. -/
def countStatus (st : ComplianceStatus) (findings : List ComplianceFinding) : Nat :=
  findings.countP (fun f => decide (f.status = st))

/-- Per-finding step of the scoring loop in compute_compliance_score. -/
def scoreStep (score : Rat) (f : ComplianceFinding) : Rat :=
  if f.status = ComplianceStatus.nonCompliant then score - 20
  else if f.status = ComplianceStatus.partialStatus then score - 10
  else score

/-- compute_compliance_score from src/src/policy_analysis.py: start at
100, subtract 20 per NON_COMPLIANT and 10 per PARTIAL finding, clamp the
final value at 0. -/
def compute_compliance_score (findings : List ComplianceFinding) : Rat :=
  max 0 (findings.foldl scoreStep 100)

/-- analyze_policy from src/src/policy_analysis.py, parameterized over the
external collaborators: `search` is the transient per-document FAISS index
restricted to its behaviour (top-1 chunk text per requirement, absent when
the index returns nothing, in which case the code uses the empty string),
and `agentFn` is ComplianceAgent.analyze for a requirement and a policy
excerpt. The inter-call rate-limit sleep has no logical effect and is not
modelled. -/
def analyze_policy (search : String → Option String)
    (agentFn : String → String → ComplianceFinding)
    (framework : Framework) : ComplianceSummary :=
  let reqs := get_requirements framework
  let findings := reqs.map (fun req => agentFn req ((search req).getD ""))
  { total_findings := findings.length
    compliant := countStatus .compliant findings
    partialCount := countStatus .partialStatus findings
    non_compliant := countStatus .nonCompliant findings
    compliance_score := compute_compliance_score findings
    findings := findings }

/-- The per-requirement agent as the audit engine invokes it, built from
per-requirement retrieval and model oracles. -/
def agent_of (retr : String → Except String (List (RetrievedDoc × Rat)))
    (llm : String → String → Except String String) :
    String → String → ComplianceFinding :=
  fun req exc => (agent_analyze (retr req) (llm req) req exc).1

/-- ComplianceReport dataclass from src/src/agent.py; the analysis
timestamp is modelled as an abstract tick. -/
structure ComplianceReport where
  framework : Framework
  document_name : String
  analysis_date : Nat
  findings : List ParserFinding
  compliance_score : Rat
  reasoning_trace : String
  strategy_used : ReasoningStrategy
  total_controls_evaluated : Nat
  compliant_count : Nat
  partial_count : Nat
  non_compliant_count : Nat
  critical_gaps : List String
  high_priority_recommendations : List String
  deriving DecidableEq

/-- AnalysisResult dataclass from src/src/agent.py. -/
structure AnalysisResult where
  success : Bool
  report : Option ComplianceReport
  error_message : Option String
  raw_response : Option String
  deriving DecidableEq

/-- Sort key of MultiStrategyComplianceAgent.get_best_result: the score of
the attached report. The Python code reads it only on entries whose report
is present. -/
def resultScore (r : AnalysisResult) : Rat :=
  match r.report with
  | some rep => rep.compliance_score
  | none => 0

/-- Filter predicate of get_best_result: a successful result carrying a
report. -/
def isSuccessful (p : ReasoningStrategy × AnalysisResult) : Bool :=
  p.2.success && p.2.report.isSome

/-- Python max with a key function over a non-empty list: keep the current
maximum, replace it only on a strictly greater key, so the first maximal
element wins. -/
def pickBest (s : ReasoningStrategy × AnalysisResult)
    (ss : List (ReasoningStrategy × AnalysisResult)) :
    ReasoningStrategy × AnalysisResult :=
  ss.foldl (fun best item => if resultScore best.2 < resultScore item.2 then item else best) s

/-- MultiStrategyComplianceAgent.get_best_result from src/src/agent.py:
filter to successful results with a report and take the maximum by
compliance score; when none qualifies, fall back to the first entry of the
(insertion-ordered) results mapping. The Python first-entry access raises
on an empty mapping, modelled by `Option`. -/
def get_best_result (results : List (ReasoningStrategy × AnalysisResult)) :
    Option (ReasoningStrategy × AnalysisResult) :=
  match results.filter isSuccessful with
  | [] => results.head?
  | s :: ss => some (pickBest s ss)

/-- Concrete model-response section exercising the structured parser. -/
def c2_section : String := "control id: AC-1\nstatus: compliant\nseverity: high"

/-- Concrete model text whose lowercasing contains the space-separated
non-compliant keyword next to the partial keyword. -/
def c5_text : String := "Partial but non compliant"

/-- Concrete retrieved documents with three non-empty texts. -/
def docs3 : List RetrievedDoc :=
  [{ text := "Relevant text.", source := "iso.pdf" },
   { text := "More text.", source := "gdpr.pdf" },
   { text := "Even more.", source := "iso.pdf" }]

/-- Concrete similarity scores with spread one half. -/
def scores3 : List Rat := [9/10, 7/10, 2/5]

/-- A fixed finding for instantiating the audit engine with a stub agent. -/
def stubFinding : ComplianceFinding :=
  { requirement := "stub"
    status := .compliant
    analysis := "The policy is compliant."
    severity := .low
    sources := []
    confidence := .high
    retrieval_notes := "ok" }

/-- A retrieval oracle that always fails. -/
def retrDown : String → Except String (List (RetrievedDoc × Rat)) :=
  fun _ => .error "opensearch unreachable"

/-- A model oracle that always answers compliantly. -/
def llmOk : String → String → Except String String :=
  fun _ _ => .ok "The policy is compliant."

/-- A policy index with no chunks. -/
def searchNone : String → Option String := fun _ => none

/-- A prompt context requesting self-correction without a previous analysis. -/
def c7_ctx : PromptContext :=
  { document_text := "doc", framework := .ISO27001, strategy := .SELF_CORRECTION,
    previous_analysis := none }

/-- A concrete parsed report with score 85. -/
def repA : ComplianceReport :=
  { framework := .ISO27001
    document_name := "policy.pdf"
    analysis_date := 0
    findings := []
    compliance_score := 85
    reasoning_trace := "trace"
    strategy_used := .CHAIN_OF_THOUGHT
    total_controls_evaluated := 0
    compliant_count := 0
    partial_count := 0
    non_compliant_count := 0
    critical_gaps := []
    high_priority_recommendations := [] }

/-- A successful analysis result carrying repA. -/
def resA : AnalysisResult :=
  { success := true, report := some repA, error_message := none,
    raw_response := some "raw" }

/-- A failed analysis result without a report. -/
def resB : AnalysisResult :=
  { success := false, report := none, error_message := some "timeout",
    raw_response := none }

/-- A concrete strategy-to-result mapping with one failed and one
successful entry. -/
def c10_results : List (ReasoningStrategy × AnalysisResult) :=
  [(.REACT, resB), (.CHAIN_OF_THOUGHT, resA)]

theorem score_foldl_eq (l : List ComplianceFinding) (s : Rat) :
    l.foldl scoreStep s =
      s - 20 * (countStatus ComplianceStatus.nonCompliant l : Rat)
        - 10 * (countStatus ComplianceStatus.partialStatus l : Rat) := by
  induction l generalizing s with
  | nil => simp [countStatus]
  | cons f l ih =>
    rcases h : f.status <;>
      simp [List.foldl_cons, ih, scoreStep, countStatus, List.countP_cons, h] <;>
      push_cast <;> ring

/-- C1: for every list of findings the aggregate compliance score equals
max(0, 100 - 20 * NON_COMPLIANT count - 10 * PARTIAL count) — COMPLIANT
and INSUFFICIENT_EVIDENCE findings subtract nothing since the score
depends only on those two counts — and the returned score is never
negative. -/
theorem compute_compliance_score_spec (findings : List ComplianceFinding) :
    compute_compliance_score findings =
      max 0 (100 - 20 * (countStatus ComplianceStatus.nonCompliant findings : Rat)
        - 10 * (countStatus ComplianceStatus.partialStatus findings : Rat)) ∧
    0 ≤ compute_compliance_score findings := by
  constructor
  · unfold compute_compliance_score
    rw [score_foldl_eq]
  · exact le_max_left 0 _

/-- C2 counterexample: the structured parser in src/src/agent.py derives
severity from text keywords independently of status, so it produces a
finding with severity HIGH whose status is COMPLIANT, refuting the claim
that severity HIGH holds only for NON_COMPLIANT findings. -/
theorem parse_finding_severity_counterexample :
    ∃ f, parse_finding_section c2_section = some f ∧
      f.severity = SeverityLevel.high ∧ f.status ≠ ComplianceStatus.nonCompliant :=
  ⟨{ control_id := "AC-1", control_title := "Unknown", requirement := "", evidence := "",
     status := .compliant, gap_description := "", severity := .high, recommendation := "" },
   by decide, by decide, by decide⟩

/-- C2 (amended): for the per-requirement agent path, severity is a pure
function of status — HIGH exactly for NON_COMPLIANT, MEDIUM exactly for
PARTIAL, LOW otherwise. -/
theorem infer_severity_pure_of_status (st : ComplianceStatus) :
    (infer_severity st = SeverityLevel.high ↔ st = ComplianceStatus.nonCompliant) ∧
    (infer_severity st = SeverityLevel.medium ↔ st = ComplianceStatus.partialStatus) ∧
    (st ≠ ComplianceStatus.nonCompliant → st ≠ ComplianceStatus.partialStatus →
      infer_severity st = SeverityLevel.low) := by
  cases st <;> simp [infer_severity]

/-- Witness: a COMPLIANT status maps to LOW severity. -/
theorem infer_severity_pure_of_status_witness :
    infer_severity ComplianceStatus.compliant = SeverityLevel.low :=
  (infer_severity_pure_of_status ComplianceStatus.compliant).2.2 (by decide) (by decide)

/-- C5 counterexample: a text containing partial and compliant but not the
hyphenated non-compliant keyword is still classified NON_COMPLIANT, because
the code also checks the space-separated spelling first; this refutes the
claim that every such text is classified PARTIAL. -/
theorem extract_status_priority_counterexample :
    containsSub "partial".data (lowerL c5_text.data) = true ∧
    containsSub "compliant".data (lowerL c5_text.data) = true ∧
    containsSub "non-compliant".data (lowerL c5_text.data) = false ∧
    extract_status c5_text = ComplianceStatus.nonCompliant := by
  decide

/-- C5 (amended): the status inference priority holds once both
non-compliant spellings are excluded — every text containing partial but
neither non-compliant spelling is classified PARTIAL. -/
theorem extract_status_priority (t : String)
    (h1 : containsSub "non-compliant".data (lowerL t.data) = false)
    (h2 : containsSub "non compliant".data (lowerL t.data) = false)
    (h3 : containsSub "partial".data (lowerL t.data) = true) :
    extract_status t = ComplianceStatus.partialStatus := by
  simp [extract_status, h1, h2, h3]

/-- Witness: a text with partial and compliant and neither non-compliant
spelling is classified PARTIAL. -/
theorem extract_status_priority_witness :
    extract_status "partially compliant" = ComplianceStatus.partialStatus :=
  extract_status_priority "partially compliant" (by decide) (by decide) (by decide)

/-- C4: the retrieval quality assessor is deterministic with the claimed
case order — no documents gives (LOW, insufficient); fewer than two
non-empty documents gives (LOW, insufficient) regardless of scores, so the
emptiness checks dominate the spread check; with scores present, at least
three non-empty documents and spread above 0.15 gives (HIGH, sufficient);
otherwise at least two non-empty documents gives (MEDIUM, sufficient). -/
theorem assess_retrieval_quality_spec :
    (∀ scores : List Rat,
      (assess_retrieval_quality [] scores).1 = ConfidenceLevel.low ∧
      (assess_retrieval_quality [] scores).2.2 = false) ∧
    (∀ (docs : List RetrievedDoc) (scores : List Rat),
      nonEmptyCount docs < 2 →
      (assess_retrieval_quality docs scores).1 = ConfidenceLevel.low ∧
      (assess_retrieval_quality docs scores).2.2 = false) ∧
    (∀ (docs : List RetrievedDoc) (scores : List Rat),
      scores ≠ [] → 3 ≤ nonEmptyCount docs → spreadThreshold < spreadOf scores →
      (assess_retrieval_quality docs scores).1 = ConfidenceLevel.high ∧
      (assess_retrieval_quality docs scores).2.2 = true) ∧
    (∀ (docs : List RetrievedDoc) (scores : List Rat),
      scores ≠ [] → 2 ≤ nonEmptyCount docs →
      ¬(3 ≤ nonEmptyCount docs ∧ spreadThreshold < spreadOf scores) →
      (assess_retrieval_quality docs scores).1 = ConfidenceLevel.medium ∧
      (assess_retrieval_quality docs scores).2.2 = true) := by
  refine ⟨?_, ?_, ?_, ?_⟩
  · intro scores
    simp [assess_retrieval_quality]
  · intro docs scores h
    by_cases hd : docs.length = 0
    · simp [assess_retrieval_quality, hd]
    · simp [assess_retrieval_quality, hd, h]
  · intro docs scores hs h3 hsp
    have hle : nonEmptyCount docs ≤ docs.length := List.length_filter_le _ _
    have hd : ¬docs.length = 0 := by omega
    have h2 : ¬nonEmptyCount docs < 2 := by omega
    have hse : scores.isEmpty = false := by
      cases scores with
      | nil => exact absurd rfl hs
      | cons a l => rfl
    unfold assess_retrieval_quality
    rw [if_neg hd, if_neg h2, if_neg (by simp [hse]), if_pos ⟨h3, hsp⟩]
    exact ⟨rfl, rfl⟩
  · intro docs scores hs h2 hnot
    have hle : nonEmptyCount docs ≤ docs.length := List.length_filter_le _ _
    have hd : ¬docs.length = 0 := by omega
    have h2' : ¬nonEmptyCount docs < 2 := by omega
    have hse : scores.isEmpty = false := by
      cases scores with
      | nil => exact absurd rfl hs
      | cons a l => rfl
    unfold assess_retrieval_quality
    rw [if_neg hd, if_neg h2', if_neg (by simp [hse]), if_neg hnot, if_pos h2]
    exact ⟨rfl, rfl⟩

/-- The spread of the concrete score list exceeds the 0.15 threshold. -/
theorem spread_scores3 : spreadThreshold < spreadOf scores3 := by
  norm_num [spreadOf, scores3, maxScore, minScore, spreadThreshold, max_def, min_def]

/-- Witness: three non-empty documents with score spread one half assess
as HIGH and sufficient. -/
theorem assess_retrieval_quality_spec_witness :
    (assess_retrieval_quality docs3 scores3).1 = ConfidenceLevel.high ∧
    (assess_retrieval_quality docs3 scores3).2.2 = true :=
  assess_retrieval_quality_spec.2.2.1 docs3 scores3 (by decide) (by decide) spread_scores3

/-- C3: whenever the retrieval quality assessment declares the evidence
insufficient, the agent emits a terminal finding with status
INSUFFICIENT_EVIDENCE and severity LOW for that requirement, and no
language-model call occurs. -/
theorem agent_insufficient_short_circuit
    (docsScores : List (RetrievedDoc × Rat)) (llm : String → Except String String)
    (req exc : String)
    (h : (assess_retrieval_quality (docsScores.map Prod.fst)
      (docsScores.map Prod.snd)).2.2 = false) :
    (agent_analyze (Except.ok docsScores) llm req exc).1.status
        = ComplianceStatus.insufficientEvidence ∧
    (agent_analyze (Except.ok docsScores) llm req exc).1.severity = SeverityLevel.low ∧
    (agent_analyze (Except.ok docsScores) llm req exc).2 = false := by
  simp [agent_analyze, h, infer_severity]

/-- Witness: with zero retrieved chunks the agent reports
INSUFFICIENT_EVIDENCE at LOW severity without calling the model. -/
theorem agent_insufficient_short_circuit_witness :
    (agent_analyze (Except.ok ([] : List (RetrievedDoc × Rat)))
        (fun _ => Except.ok "The policy is compliant.") "Access control" "").1.status
      = ComplianceStatus.insufficientEvidence ∧
    (agent_analyze (Except.ok ([] : List (RetrievedDoc × Rat)))
        (fun _ => Except.ok "The policy is compliant.") "Access control" "").1.severity
      = SeverityLevel.low ∧
    (agent_analyze (Except.ok ([] : List (RetrievedDoc × Rat)))
        (fun _ => Except.ok "The policy is compliant.") "Access control" "").2 = false :=
  agent_insufficient_short_circuit [] (fun _ => Except.ok "The policy is compliant.")
    "Access control" "" (by decide)

theorem extract_score_lines_append (pre rest : List (List Char))
    (hpre : ∀ l ∈ pre, isScoreLine l = false) :
    extract_score_lines (pre ++ rest) = extract_score_lines rest := by
  induction pre with
  | nil => rfl
  | cons l ls ih =>
    have hl : isScoreLine l = false := hpre l (List.mem_cons_self _ _)
    rw [List.cons_append]
    simp only [extract_score_lines, hl, Bool.false_eq_true, if_false]
    exact ih fun x hx => hpre x (List.mem_cons_of_mem _ hx)

/-- C6: score extraction scans the lines for the three score keywords
case-insensitively; when the first matching line carries a numeric token,
that token is divided by 100 if it exceeds 100 and clamped into [0,100];
when no line matches, the score is 0; and the text Final Score: 8500
yields 85. -/
theorem extract_score_spec :
    (∀ (text : String) (pre post : List (List Char)) (l : List Char) (n : Rat),
      splitOnNl text.data = pre ++ l :: post →
      (∀ l' ∈ pre, isScoreLine l' = false) →
      isScoreLine l = true →
      firstNumber l = some n →
      extract_score text = clampScore (if 100 < n then n / 100 else n)) ∧
    (∀ text : String, (∀ l ∈ splitOnNl text.data, isScoreLine l = false) →
      extract_score text = 0) ∧
    extract_score "Final Score: 8500" = 85 := by
  refine ⟨?_, ?_, ?_⟩
  · intro text pre post l n hsplit hpre hl hn
    rw [extract_score, hsplit, extract_score_lines_append pre _ hpre]
    simp only [extract_score_lines, hl, if_true, hn]
  · intro text hall
    rw [extract_score]
    have key : ∀ ls : List (List Char), (∀ l ∈ ls, isScoreLine l = false) →
        extract_score_lines ls = 0 := by
      intro ls
      induction ls with
      | nil => intro _; rfl
      | cons l ls ih =>
        intro h
        simp only [extract_score_lines, h l (List.mem_cons_self _ _),
          Bool.false_eq_true, if_false]
        exact ih fun x hx => h x (List.mem_cons_of_mem _ hx)
    exact key _ hall
  · have h1 : splitOnNl ("Final Score: 8500").data = ["Final Score: 8500".data] := by
      decide
    have h2 : isScoreLine "Final Score: 8500".data = true := by decide
    have h3 : firstNumber "Final Score: 8500".data
        = some (ratOfParts "8500".data []) := rfl
    rw [extract_score, h1]
    simp only [extract_score_lines, h2, if_true, h3]
    have h4 : ratOfParts "8500".data [] = 8500 := by
      have h5 : parseNatL "8500".data = 8500 := by decide
      have h6 : parseNatL ([] : List Char) = 0 := rfl
      simp [ratOfParts, h5, h6]
    rw [h4]
    norm_num [clampScore]

/-- The first numeric token of the concrete line has value 42. -/
theorem firstNumber_42 : firstNumber ("Overall score: 42").data = some 42 := by
  have h : firstNumber ("Overall score: 42").data = some (ratOfParts "42".data []) := rfl
  rw [h]
  have h5 : parseNatL "42".data = 42 := by decide
  have h6 : parseNatL ([] : List Char) = 0 := rfl
  simp [ratOfParts, h5, h6]

/-- Witness: a line carrying an overall-score keyword and the token 42
extracts the clamped value of 42. -/
theorem extract_score_spec_witness :
    extract_score "Overall score: 42"
      = clampScore (if 100 < (42 : Rat) then 42 / 100 else 42) :=
  extract_score_spec.1 "Overall score: 42" [] [] ("Overall score: 42").data 42
    (by decide) (by simp) (by decide) firstNumber_42

/-- C7: building the complete prompt fails exactly when the strategy is
SELF_CORRECTION and the previous analysis is absent or empty; every
successful build returns the complete pair of system prompt and analysis
prompt, never a partial result. -/
theorem build_complete_prompt_spec (ctx : PromptContext) :
    ((∃ e, build_complete_prompt ctx = Except.error e) ↔
      (ctx.strategy = ReasoningStrategy.SELF_CORRECTION ∧
        (ctx.previous_analysis = none ∨ ctx.previous_analysis = some ""))) ∧
    (∀ p, build_complete_prompt ctx = Except.ok p →
      p.1 = build_system_prompt ∧ build_analysis_prompt ctx = Except.ok p.2) := by
  constructor
  · obtain ⟨doc, fw, strat, prev⟩ := ctx
    cases strat <;> rcases prev with _ | s <;>
      simp [build_complete_prompt, build_analysis_prompt, self_correction_build]
    by_cases hs : s = "" <;> simp [hs]
  · intro p hp
    unfold build_complete_prompt at hp
    cases hba : build_analysis_prompt ctx with
    | ok a =>
      rw [hba] at hp
      cases hp
      exact ⟨rfl, rfl⟩
    | error e =>
      rw [hba] at hp
      cases hp

/-- Witness: requesting self-correction without a previous analysis fails
with an input-validation error. -/
theorem build_complete_prompt_spec_witness :
    ∃ e, build_complete_prompt c7_ctx = Except.error e :=
  (build_complete_prompt_spec c7_ctx).1.mpr ⟨rfl, Or.inl rfl⟩

theorem agent_analyze_fail_insufficient
    (retrieval : Except String (List (RetrievedDoc × Rat)))
    (llm : String → Except String String) (req exc : String)
    (h : (∃ e, retrieval = Except.error e) ∨ (∀ s, ∃ e, llm s = Except.error e)) :
    (agent_analyze retrieval llm req exc).1.status
      = ComplianceStatus.insufficientEvidence := by
  cases retrieval with
  | error e => rfl
  | ok ds =>
    rcases h with ⟨e, he⟩ | hllm
    · simp at he
    · by_cases hq : (assess_retrieval_quality (ds.map Prod.fst)
          (ds.map Prod.snd)).2.2 = true
      · obtain ⟨e, he⟩ := hllm (build_requirement_prompt req exc (ds.map Prod.fst))
        simp [agent_analyze, hq, he]
      · rw [Bool.not_eq_true] at hq
        simp [agent_analyze, hq]

theorem analyze_policy_findings_eq (search : String → Option String)
    (agentFn : String → String → ComplianceFinding) (fw : Framework) :
    (analyze_policy search agentFn fw).findings
      = (get_requirements fw).map (fun req => agentFn req ((search req).getD "")) := rfl

/-- C8: a failing retrieval oracle or a failing model oracle for one
requirement degrades that requirement's finding to INSUFFICIENT_EVIDENCE
while the audit still produces one finding per requirement — no
per-requirement failure aborts the audit. -/
theorem analyze_policy_isolates_failures
    (retr : String → Except String (List (RetrievedDoc × Rat)))
    (llm : String → String → Except String String)
    (search : String → Option String) (fw : Framework) :
    (analyze_policy search (agent_of retr llm) fw).findings.length
        = (get_requirements fw).length ∧
    (∀ (i : Nat) (req : String),
      (get_requirements fw).get? i = some req →
      ((∃ e, retr req = Except.error e) ∨ (∀ s, ∃ e, llm req s = Except.error e)) →
      ∃ f, (analyze_policy search (agent_of retr llm) fw).findings.get? i = some f ∧
        f.status = ComplianceStatus.insufficientEvidence) := by
  constructor
  · rw [analyze_policy_findings_eq]
    exact List.length_map _ _
  · intro i req hreq hfail
    refine ⟨agent_of retr llm req ((search req).getD ""), ?_, ?_⟩
    · rw [analyze_policy_findings_eq, List.get?_map, hreq]
      rfl
    · exact agent_analyze_fail_insufficient (retr req) (llm req) req
        ((search req).getD "") hfail

/-- Witness: with an unreachable retrieval backend, the first ISO 27001
requirement still yields a finding, with status INSUFFICIENT_EVIDENCE. -/
theorem analyze_policy_isolates_failures_witness :
    ∃ f, (analyze_policy searchNone (agent_of retrDown llmOk)
        Framework.ISO27001).findings.get? 0 = some f ∧
      f.status = ComplianceStatus.insufficientEvidence :=
  (analyze_policy_isolates_failures retrDown llmOk searchNone Framework.ISO27001).2 0
    "Information security policies must be formally documented and approved"
    rfl (Or.inl ⟨"opensearch unreachable", rfl⟩)

/-- C9: every framework other than ISO27001 and GDPR has the empty
requirement list, and the audit then returns a summary with zero findings,
zero per-status counts and compliance score 100. -/
theorem analyze_policy_unknown_framework
    (search : String → Option String) (agentFn : String → String → ComplianceFinding)
    (fw : Framework) (h1 : fw ≠ Framework.ISO27001) (h2 : fw ≠ Framework.GDPR) :
    get_requirements fw = [] ∧
    analyze_policy search agentFn fw =
      { total_findings := 0, compliant := 0, partialCount := 0, non_compliant := 0,
        compliance_score := 100, findings := [] } := by
  have hreq : get_requirements fw = [] := by
    cases fw
    · exact absurd rfl h1
    · exact absurd rfl h2
    · rfl
    · rfl
  refine ⟨hreq, ?_⟩
  unfold analyze_policy
  rw [hreq]
  simp [countStatus, compute_compliance_score]

/-- Witness: the SOC2 framework has no requirement list and audits to the
empty summary with score 100. -/
theorem analyze_policy_unknown_framework_witness :
    get_requirements Framework.SOC2 = [] ∧
    analyze_policy searchNone (fun _ _ => stubFinding) Framework.SOC2 =
      { total_findings := 0, compliant := 0, partialCount := 0, non_compliant := 0,
        compliance_score := 100, findings := [] } :=
  analyze_policy_unknown_framework searchNone (fun _ _ => stubFinding) Framework.SOC2
    (by decide) (by decide)

theorem pickBest_mem (s : ReasoningStrategy × AnalysisResult)
    (ss : List (ReasoningStrategy × AnalysisResult)) :
    pickBest s ss ∈ s :: ss := by
  induction ss generalizing s with
  | nil => simp [pickBest]
  | cons a ss ih =>
    simp only [pickBest, List.foldl_cons]
    by_cases hc : resultScore s.2 < resultScore a.2
    · rw [if_pos hc]
      have h := ih a
      simp only [pickBest] at h
      simp only [List.mem_cons] at h ⊢
      tauto
    · rw [if_neg hc]
      have h := ih s
      simp only [pickBest] at h
      simp only [List.mem_cons] at h ⊢
      tauto

theorem pickBest_le (s : ReasoningStrategy × AnalysisResult)
    (ss : List (ReasoningStrategy × AnalysisResult)) :
    ∀ x ∈ s :: ss, resultScore x.2 ≤ resultScore (pickBest s ss).2 := by
  induction ss generalizing s with
  | nil =>
    intro x hx
    rcases List.mem_cons.mp hx with h | h
    · subst h
      exact le_refl _
    · cases h
  | cons a ss ih =>
    intro x hx
    have hpb : pickBest s (a :: ss)
        = pickBest (if resultScore s.2 < resultScore a.2 then a else s) ss := by
      simp only [pickBest, List.foldl_cons]
    have hstep_s : resultScore s.2
        ≤ resultScore (if resultScore s.2 < resultScore a.2 then a else s).2 := by
      by_cases hc : resultScore s.2 < resultScore a.2
      · rw [if_pos hc]
        exact le_of_lt hc
      · rw [if_neg hc]
    have hstep_a : resultScore a.2
        ≤ resultScore (if resultScore s.2 < resultScore a.2 then a else s).2 := by
      by_cases hc : resultScore s.2 < resultScore a.2
      · rw [if_pos hc]
      · rw [if_neg hc]
        exact le_of_not_lt hc
    have hres : resultScore (if resultScore s.2 < resultScore a.2 then a else s).2
        ≤ resultScore (pickBest s (a :: ss)).2 := by
      rw [hpb]
      exact ih _ _ (List.mem_cons_self _ _)
    rcases List.mem_cons.mp hx with h | h
    · subst h
      exact le_trans hstep_s hres
    · rcases List.mem_cons.mp h with h | h
      · subst h
        exact le_trans hstep_a hres
      · rw [hpb]
        exact ih _ x (List.mem_cons_of_mem _ h)

/-- C10: on a non-empty strategy-to-result mapping, get_best_result
returns an entry of the mapping whose result is successful with a report
whose compliance score is maximal among all successful results carrying a
report; when no entry qualifies, it returns the mapping's first entry. -/
theorem get_best_result_spec (results : List (ReasoningStrategy × AnalysisResult))
    (hne : results ≠ []) :
    ((∀ q ∈ results, isSuccessful q = false) →
      get_best_result results = results.head?) ∧
    (∀ q0 ∈ results, isSuccessful q0 = true →
      ∃ p, get_best_result results = some p ∧ p ∈ results ∧ p.2.success = true ∧
        ∃ rep, p.2.report = some rep ∧
          ∀ q ∈ results, q.2.success = true → ∀ rq, q.2.report = some rq →
            rq.compliance_score ≤ rep.compliance_score) := by
  constructor
  · intro hall
    have hfil : results.filter isSuccessful = [] := by
      rw [List.filter_eq_nil]
      intro a ha
      simp [hall a ha]
    simp only [get_best_result, hfil]
  · intro q0 hq0 hsq0
    have hmemf : q0 ∈ results.filter isSuccessful := List.mem_filter.mpr ⟨hq0, hsq0⟩
    cases hfil : results.filter isSuccessful with
    | nil =>
      rw [hfil] at hmemf
      cases hmemf
    | cons s ss =>
      have hpmem : pickBest s ss ∈ s :: ss := pickBest_mem s ss
      have hpmemf : pickBest s ss ∈ results.filter isSuccessful := by
        rw [hfil]
        exact hpmem
      have hpr : pickBest s ss ∈ results := List.mem_of_mem_filter hpmemf
      have hps : isSuccessful (pickBest s ss) = true := List.of_mem_filter hpmemf
      rw [isSuccessful, Bool.and_eq_true] at hps
      obtain ⟨rep, hrep⟩ := Option.isSome_iff_exists.mp hps.2
      refine ⟨pickBest s ss, ?_, hpr, hps.1, rep, hrep, ?_⟩
      · simp only [get_best_result, hfil]
      · intro q hq hqs rq hrq
        have hqf : q ∈ results.filter isSuccessful :=
          List.mem_filter.mpr ⟨hq, by simp [isSuccessful, hqs, hrq]⟩
        rw [hfil] at hqf
        have hle := pickBest_le s ss q hqf
        have h1 : resultScore q.2 = rq.compliance_score := by simp [resultScore, hrq]
        have h2 : resultScore (pickBest s ss).2 = rep.compliance_score := by
          simp [resultScore, hrep]
        rw [h1, h2] at hle
        exact hle

/-- Witness: in a mapping with one failed and one successful entry, the
successful entry with the maximal score is returned. -/
theorem get_best_result_spec_witness :
    ∃ p, get_best_result c10_results = some p ∧ p ∈ c10_results ∧
      p.2.success = true ∧
      ∃ rep, p.2.report = some rep ∧
        ∀ q ∈ c10_results, q.2.success = true → ∀ rq, q.2.report = some rq →
          rq.compliance_score ≤ rep.compliance_score :=
  (get_best_result_spec c10_results (by decide)).2
    (ReasoningStrategy.CHAIN_OF_THOUGHT, resA) (by simp [c10_results]) (by decide)
